import Mathlib

/-!
Verification of the statistical-aggregation core of the OGGM_CR2_Chile
scripts (`02_Andes_2000_2019_CR2_figura_2023.py`,
`03_Multi_Dataset_Comparison_DA1.py`).

Python/numpy/pandas floats are modelled as `ℚ`; a floating NaN is modelled
as `Option.none`; Python exceptions are modelled with `Except PyError`.
-/

/-- Python runtime error conditions raised by the modelled code paths. -/
inductive PyError where
  | zeroDivisionError : PyError
  | keyError : String → PyError
  deriving DecidableEq, Repr

/-- Python float division: `a / b` raises `ZeroDivisionError` when `b == 0`,
otherwise returns the quotient. -/
def pyDiv (a b : ℚ) : Except PyError ℚ :=
  if b = 0 then .error .zeroDivisionError else .ok (a / b)

/-- Embedding of `np.mean(xs)`: arithmetic mean; NaN (here `none`) on an empty array. -/
def npMean (xs : List ℚ) : Option ℚ :=
  if xs.length = 0 then none else some (xs.sum / xs.length)

/-- Embedding of `np.var(xs, ddof)` (the square of `np.std(xs, ddof)`): sum of squared
deviations from the mean divided by `n - ddof`; when `n ≤ ddof` numpy emits a
degrees-of-freedom warning and the result is NaN (`none`). -/
def npVar (ddof : ℕ) (xs : List ℚ) : Option ℚ :=
  if xs.length ≤ ddof then none
  else
    some (((xs.map (fun x => (x - xs.sum / xs.length) ^ 2)).sum) /
      ((xs.length - ddof : ℕ) : ℚ))

/-- Embedding of `np.std(xs, ddof)` as a Python call: it never raises an exception; with
`n ≤ ddof` it returns NaN (`none`) after a runtime warning, otherwise a finite
value (tracked by its square, `npVar`, since the square root is irrational). -/
def npStdCall (ddof : ℕ) (xs : List ℚ) : Except PyError (Option ℚ) :=
  Except.ok (npVar ddof xs)

/-- Embedding of `np.max(xs)`: maximum element, NaN-free model; `none` on empty input. -/
def npMax : List ℚ → Option ℚ
  | [] => none
  | x :: xs => some (xs.foldl max x)

/-- Embedding of `np.min(xs)`: minimum element; `none` on empty input. -/
def npMin : List ℚ → Option ℚ
  | [] => none
  | x :: xs => some (xs.foldl min x)

/-- Embedding of `smb_means = np.array([cr2_smb_mean, era5_smb_mean, cru_smb_mean])`
followed by `ensemble_mean = np.mean(smb_means)`
(`03_Multi_Dataset_Comparison_DA1.py`, lines 83-84). -/
def ensemble_mean (cr2 era5 cru : ℚ) : Option ℚ :=
  npMean [cr2, era5, cru]

/-- Embedding of `climate_uncertainty = np.std(smb_means, ddof=1)` tracked by its square
(`03_Multi_Dataset_Comparison_DA1.py`, line 85). -/
def climate_uncertainty_sq (cr2 era5 cru : ℚ) : Option ℚ :=
  npVar 1 [cr2, era5, cru]

/-- Embedding of `smb_range = np.max(smb_means) - np.min(smb_means)`
(`03_Multi_Dataset_Comparison_DA1.py`, line 86). -/
def smb_range (cr2 era5 cru : ℚ) : Option ℚ := do
  pure ((← npMax [cr2, era5, cru]) - (← npMin [cr2, era5, cru]))

/-- One bias line of `summary_text`
(`03_Multi_Dataset_Comparison_DA1.py`, lines 318-320): the absolute bias
`smb - gmb` and the percentage `(smb - gmb)/gmb*100`, the latter raising
`ZeroDivisionError` when `gmb == 0` (Python float semantics). -/
def biasLine (smb gmb : ℚ) : Except PyError (ℚ × ℚ) := do
  let pct ← pyDiv (smb - gmb) gmb
  pure (smb - gmb, pct * 100)

/-- The three `BIASES (relative to GMB)` lines of `summary_text`
(`03_Multi_Dataset_Comparison_DA1.py`, lines 317-320). -/
def summaryBiases (cr2 era5 cru gmb : ℚ) :
    Except PyError ((ℚ × ℚ) × (ℚ × ℚ) × (ℚ × ℚ)) := do
  let b1 ← biasLine cr2 gmb
  let b2 ← biasLine era5 gmb
  let b3 ← biasLine cru gmb
  pure (b1, b2, b3)

/-- C3: for any three dataset SMB scalars, the ensemble mean computed by the
aggregator is exactly the unweighted arithmetic mean `(a+b+c)/3`. -/
theorem c3_ensemble_mean_is_arithmetic_mean (a b c : ℚ) :
    ensemble_mean a b c = some ((a + b + c) / 3) := by
  simp [ensemble_mean, npMean]
  ring_nf

/-- C5: for every triple of dataset SMB values, computing the percentage bias
relative to a GMB value of exactly zero raises `ZeroDivisionError`; no value
(infinity or NaN) is returned. -/
theorem c5_bias_at_gmb_zero_raises (cr2 era5 cru : ℚ) :
    summaryBiases cr2 era5 cru 0 = Except.error PyError.zeroDivisionError := by
  simp [summaryBiases, biasLine, pyDiv]
  rfl

/-- C2: the climate-forcing uncertainty is the sample standard deviation of
the three SMB scalars with divisor `n − 1 = 2`; for `{-1000, -1100, -1050}`
the mean is `-1050` and the standard deviation is exactly `50`. -/
theorem c2_climate_uncertainty_is_sample_std :
    (∀ a b c : ℚ, climate_uncertainty_sq a b c =
      some (((a - (a + b + c) / 3) ^ 2 + (b - (a + b + c) / 3) ^ 2 +
        (c - (a + b + c) / 3) ^ 2) / 2))
    ∧ npMean [(-1000 : ℚ), -1100, -1050] = some (-1050)
    ∧ climate_uncertainty_sq (-1000) (-1100) (-1050) = some 2500
    ∧ Real.sqrt ((2500 : ℚ) : ℝ) = 50 := by
  refine ⟨?_, ?_, ?_, ?_⟩
  · intro a b c
    norm_num [climate_uncertainty_sq, npVar]
    ring_nf
  · norm_num [npMean]
  · norm_num [climate_uncertainty_sq, npVar]
  · rw [show ((2500 : ℚ) : ℝ) = (50 : ℝ) ^ 2 by norm_num]
    exact Real.sqrt_sq (by norm_num)

/-- C6 counterexample: `np.std` over the single value `-1000` with `ddof = 1`
returns NaN (after a degrees-of-freedom runtime warning) — a returned value,
not a raised error condition, contradicting the claimed InsufficientSamples
failure. -/
theorem c6_counterexample_std_returns_nan :
    npStdCall 1 [(-1000 : ℚ)] = Except.ok none := by
  rfl

/-- C6 amended: with fewer than 2 samples, the sample-standard-deviation
computation `np.std(·, ddof=1)` does not raise; it returns NaN (`none`). -/
theorem c6_amended_std_returns_nan_not_error (xs : List ℚ)
    (h : xs.length < 2) : npStdCall 1 xs = Except.ok none := by
  have hle : xs.length ≤ 1 := Nat.lt_succ_iff.mp h
  simp [npStdCall, npVar, hle]

/-- C6 witness: the amended behaviour at the concrete empty input. -/
theorem c6_witness_empty_input :
    ([] : List ℚ).length < 2 ∧ npStdCall 1 ([] : List ℚ) = Except.ok none :=
  ⟨by decide, c6_amended_std_returns_nan_not_error [] (by decide)⟩

/-- C4 counterexample: for the scenario inputs the aggregator's variance is
`5700`, whose square root (the reported SD) is smaller than `75.9`, hence
more than `0.5` below the claimed `76.4`: the claim `SD ≈ 76.4` is false. -/
theorem c4_counterexample_sd_not_76_4 :
    climate_uncertainty_sq (-1100) (-950) (-1010) = some 5700 ∧
    Real.sqrt ((5700 : ℚ) : ℝ) < 76.4 - 1 / 2 := by
  constructor
  · norm_num [climate_uncertainty_sq, npVar]
  · rw [show ((5700 : ℚ) : ℝ) = 5700 by norm_num,
      show (76.4 - 1 / 2 : ℝ) = 75.9 by norm_num,
      Real.sqrt_lt' (by norm_num)]
    norm_num

/-- C4 amended: for CR2MET SMB `-1100`, ERA5 SMB `-950`, CRU SMB `-1010`,
GMB `-1000`, the aggregator produces ensemble mean `-1020`, sample variance
`5700` so SD `= √5700 ≈ 75.5` (strictly between `75.4` and `75.6`, not
`76.4`), range `150`, and biases CR2MET `-100` (`+10%`), ERA5 `+50` (`-5%`),
CRU `-10` (`+1%`). -/
theorem c4_amended_scenario_values :
    ensemble_mean (-1100) (-950) (-1010) = some (-1020) ∧
    climate_uncertainty_sq (-1100) (-950) (-1010) = some 5700 ∧
    ((75.4 : ℝ) < Real.sqrt ((5700 : ℚ) : ℝ) ∧
      Real.sqrt ((5700 : ℚ) : ℝ) < 75.6) ∧
    smb_range (-1100) (-950) (-1010) = some 150 ∧
    summaryBiases (-1100) (-950) (-1010) (-1000) =
      Except.ok ((-100, 10), (50, -5), (-10, 1)) := by
  refine ⟨?_, ?_, ⟨?_, ?_⟩, ?_, ?_⟩
  · norm_num [ensemble_mean, npMean]
  · norm_num [climate_uncertainty_sq, npVar]
  · rw [show ((5700 : ℚ) : ℝ) = 5700 by norm_num,
      Real.lt_sqrt (by norm_num)]
    norm_num
  · rw [show ((5700 : ℚ) : ℝ) = 5700 by norm_num,
      Real.sqrt_lt' (by norm_num)]
    norm_num
  · norm_num [smb_range, npMax, npMin]
  · norm_num [summaryBiases, biasLine, pyDiv]
    rfl

/-- Embedding of `read_comparison_csv` (`03_Multi_Dataset_Comparison_DA1.py`, lines 21-33):
rows are `(value, label)` pairs; the header row (index 0) is skipped; a cell
whose value does not parse as a float (modelled `none`) is skipped silently;
the remaining pairs populate a dict keyed by label. -/
def read_comparison_csv (rows : List (Option ℚ × String)) :
    List (String × ℚ) :=
  (rows.drop 1).filterMap fun r => r.1.map fun v => (r.2, v)

/-- Python dict lookup over the insertion list: the last binding of a key
wins (later `data_dict[label] = value` assignments overwrite earlier ones). -/
def dictGet (d : List (String × ℚ)) (k : String) : Option ℚ :=
  ((d.filter fun p => p.1 == k).getLast?).map fun p => p.2

/-- Python `d[k]`: raises `KeyError(k)` when the key is absent. -/
def pyGetItem (d : List (String × ℚ)) (k : String) : Except PyError ℚ :=
  match dictGet d k with
  | some v => .ok v
  | none => .error (.keyError k)

/-- The scalars pulled out of the three comparison dicts
(`03_Multi_Dataset_Comparison_DA1.py`, lines 44-53). -/
structure ComparisonMeans where
  gmb_value : ℚ
  gmb_error : ℚ
  cr2_smb_mean : ℚ
  era5_smb_mean : ℚ
  cru_smb_mean : ℚ
  cr2_n : ℚ
  era5_n : ℚ
  cru_n : ℚ
  deriving DecidableEq, Repr

/-- The extraction sequence of `03_Multi_Dataset_Comparison_DA1.py`,
lines 44-53: `GMB` and `GMB_error` come from the CR2MET dict only; `SMB` and
`n_g_oggm` from each dict; `area_oggm` is never accessed. -/
def extractMeans (cr2 era5 cru : List (String × ℚ)) :
    Except PyError ComparisonMeans := do
  let gmb ← pyGetItem cr2 "GMB"
  let gmbe ← pyGetItem cr2 "GMB_error"
  let c ← pyGetItem cr2 "SMB"
  let e ← pyGetItem era5 "SMB"
  let u ← pyGetItem cru "SMB"
  let cn ← pyGetItem cr2 "n_g_oggm"
  let en ← pyGetItem era5 "n_g_oggm"
  let un ← pyGetItem cru "n_g_oggm"
  pure ⟨gmb, gmbe, c, e, u, cn, en, un⟩

/-- C8 counterexample: records that are missing the required `area_oggm`
field entirely still load successfully — no failure identifies the missing
field, contradicting the claim. -/
theorem c8_counterexample_missing_area_oggm_loads :
    extractMeans
      [("GMB", -1000), ("GMB_error", 150), ("SMB", -1100), ("n_g_oggm", 50)]
      [("SMB", -950), ("n_g_oggm", 48)]
      [("SMB", -1010), ("n_g_oggm", 47)] =
      Except.ok ⟨-1000, 150, -1100, -950, -1010, 50, 48, 47⟩ := by
  rfl

/-- C8 amended: a missing (or skipped-as-malformed) `GMB` key in the CR2MET
dict makes loading fail with `KeyError "GMB"`; an `area_oggm` entry is never
consulted; when all accessed keys are present the loaded values are exactly
the stored ones (no defaults); and a malformed (unparseable) cell is dropped
by `read_comparison_csv`, so its label is simply absent. -/
theorem c8_amended_loader_behaviour (cr2 era5 cru : List (String × ℚ)) :
    (dictGet cr2 "GMB" = none →
      extractMeans cr2 era5 cru = Except.error (PyError.keyError "GMB"))
    ∧ (∀ x : ℚ,
        extractMeans (("area_oggm", x) :: cr2) era5 cru =
          extractMeans cr2 era5 cru)
    ∧ (∀ g ge cs es us cn en un : ℚ,
        dictGet cr2 "GMB" = some g → dictGet cr2 "GMB_error" = some ge →
        dictGet cr2 "SMB" = some cs → dictGet era5 "SMB" = some es →
        dictGet cru "SMB" = some us → dictGet cr2 "n_g_oggm" = some cn →
        dictGet era5 "n_g_oggm" = some en → dictGet cru "n_g_oggm" = some un →
        extractMeans cr2 era5 cru = Except.ok ⟨g, ge, cs, es, us, cn, en, un⟩)
    ∧ (∀ (hd : Option ℚ × String) (t : List (Option ℚ × String)) (lbl : String),
        read_comparison_csv (hd :: (none, lbl) :: t) =
          read_comparison_csv (hd :: t)) := by
  refine ⟨?_, ?_, ?_, ?_⟩
  · intro h
    simp [extractMeans, pyGetItem, h]
    rfl
  · intro x
    have hk : ∀ k : String, ("area_oggm" == k) = false →
        dictGet (("area_oggm", x) :: cr2) k = dictGet cr2 k := by
      intro k hne
      simp [dictGet, List.filter, hne]
    simp only [extractMeans, pyGetItem,
      hk "GMB" (by decide), hk "GMB_error" (by decide),
      hk "SMB" (by decide), hk "n_g_oggm" (by decide)]
  · intro g ge cs es us cn en un h1 h2 h3 h4 h5 h6 h7 h8
    simp [extractMeans, pyGetItem, h1, h2, h3, h4, h5, h6, h7, h8]
    rfl
  · intro hd t lbl
    simp [read_comparison_csv]

/-- C8 witness: the amended loader behaviour at concrete dicts — a dict
without `GMB` fails with `KeyError "GMB"`. -/
theorem c8_witness_missing_gmb_fails :
    extractMeans [(("SMB" : String), (1 : ℚ))] [] [] =
      Except.error (PyError.keyError "GMB") :=
  (c8_amended_loader_behaviour [("SMB", 1)] [] []).1 (by rfl)

/-- The NaN-propagating dot product inside `np.average(values, weights)`:
`Σ value_i * weight_i`, NaN (`none`) as soon as one value is NaN (numpy sums
propagate NaN); `none` also on a length mismatch (numpy raises there, a case
the scripts never create). -/
def dotNan : List (Option ℚ) → List ℚ → Option ℚ
  | [], [] => some 0
  | some v :: vs, w :: ws => (dotNan vs ws).map fun s => v * w + s
  | none :: _, _ :: _ => none
  | _, _ => none

/-- Embedding of `np.average(mb_list, axis=0, weights=areas)`
(`02_Andes_2000_2019_CR2_figura_2023.py`, line 165): `Σ w·v / Σ w`; raises
`ZeroDivisionError` when the weights sum to zero; a NaN value propagates to a
NaN result. -/
def npAverage (vals : List (Option ℚ)) (ws : List ℚ) :
    Except PyError (Option ℚ) :=
  if ws.sum = 0 then .error .zeroDivisionError
  else .ok ((dotNan vals ws).map (· / ws.sum))

/-- Embedding of `mb_sim['mb_mm_pon'] = mb_sim.mb_sim * (area_sim / area_sim.sum())`
(`02_Andes_2000_2019_CR2_figura_2023.py`, line 205): pandas multiplies each
(possibly NaN) per-glacier value by its share of the TOTAL simulated area. -/
def mb_mm_pon (vals : List (Option ℚ)) (ws : List ℚ) : List (Option ℚ) :=
  (vals.zip ws).map fun p => p.1.map (· * (p.2 / ws.sum))

/-- pandas `Series.sum()` with its default `skipna=True`: NaN entries
contribute nothing to the sum. -/
def seriesSum (xs : List (Option ℚ)) : ℚ := (xs.filterMap id).sum

/-- Embedding of `smb_value = mb_sim.mb_mm_pon.sum()`
(`02_Andes_2000_2019_CR2_figura_2023.py`, line 207). -/
def smb_value (vals : List (Option ℚ)) (ws : List ℚ) : ℚ :=
  seriesSum (mb_mm_pon vals ws)

/-- Embedding of `ID_area = ID_area.dropna(axis=0)`
(`02_Andes_2000_2019_CR2_figura_2023.py`, line 113): rows with a missing area
are removed before any mass balance is computed for the cluster. -/
def dropnaAreas (rows : List (String × Option ℚ)) : List (String × ℚ) :=
  rows.filterMap fun r => r.2.map fun a => (r.1, a)

/-- The spec's area-weighted reducer, written from its words: drop every
(value, area) pair with a NaN/missing member, then return
`Σ value_i·area_i / Σ area_i` over the kept pairs (drop-and-renormalize). -/
def specWeightedMean (pairs : List (Option ℚ × Option ℚ)) : ℚ :=
  let kept := pairs.filterMap fun p => p.1.bind fun v => p.2.map fun a => (v, a)
  ((kept.map fun q => q.1 * q.2).sum) / ((kept.map fun q => q.2).sum)

lemma dotNan_map_some (vs ws : List ℚ) (h : vs.length = ws.length) :
    dotNan (vs.map some) ws =
      some (((vs.zip ws).map fun p => p.1 * p.2).sum) := by
  induction vs generalizing ws with
  | nil =>
    cases ws with
    | nil => simp [dotNan]
    | cons w wt => simp at h
  | cons v t ih =>
    cases ws with
    | nil => simp at h
    | cons w wt => simp [dotNan, ih wt (by simpa using h)]

lemma dotNan_of_none_mem (vals : List (Option ℚ)) (ws : List ℚ)
    (h : vals.length = ws.length) (hn : none ∈ vals) :
    dotNan vals ws = none := by
  induction vals generalizing ws with
  | nil => simp at hn
  | cons a t ih =>
    cases ws with
    | nil => simp at h
    | cons w wt =>
      cases a with
      | none => simp [dotNan]
      | some v =>
        have hn' : none ∈ t := by simpa using hn
        simp [dotNan, ih wt (by simpa using h) hn']

lemma seriesSum_mb_mm_pon (vals : List (Option ℚ)) (ws : List ℚ) :
    smb_value vals ws =
      (((vals.zip ws).filterMap fun p => p.1.map fun v => v * p.2).sum) /
        ws.sum := by
  have key : ∀ (l : List (Option ℚ × ℚ)) (S : ℚ),
      ((l.filterMap fun p => p.1.map (· * (p.2 / S))).sum) =
        ((l.filterMap fun p => p.1.map fun v => v * p.2).sum) / S := by
    intro l S
    induction l with
    | nil => simp
    | cons a t ih =>
      rcases a with ⟨av, aw⟩
      cases av with
      | none => simpa using ih
      | some v => simp [List.filterMap_cons, ih, add_div, mul_div_assoc]
  simpa [smb_value, mb_mm_pon, seriesSum] using key (vals.zip ws) ws.sum

lemma zip_map_pair {α β γ : Type} (f : α → β) (g : α → γ) (l : List α) :
    (l.map f).zip (l.map g) = l.map fun x => (f x, g x) := by
  induction l with
  | nil => rfl
  | cons a t ih => simp [ih]

lemma filterMap_some_fun {α β : Type} (g : α → β) (l : List α) :
    (l.filterMap fun x => some (g x)) = l.map g := by
  induction l with
  | nil => rfl
  | cons a t ih => simp [List.filterMap_cons, ih]

lemma kept_pairs_eq (mb : String → ℚ) (rows : List (String × Option ℚ)) :
    ((rows.map fun r => ((some (mb r.1) : Option ℚ), r.2)).filterMap
        fun p => p.1.bind fun v => p.2.map fun a => (v, a)) =
      (dropnaAreas rows).map fun r => (mb r.1, r.2) := by
  induction rows with
  | nil => simp [dropnaAreas]
  | cons r t ih =>
    rcases r with ⟨g, a?⟩
    cases a? with
    | none => simpa [dropnaAreas, List.filterMap_cons] using ih
    | some a => simpa [dropnaAreas, List.filterMap_cons] using ih

/-- C1 counterexample: a pair whose value is NaN is NOT excluded from the
denominator. The spec reducer over `{(100, area 1), (NaN, area 1)}` gives
`100`; the code's scalar-SMB path gives `50` (the NaN value contributes zero
to the numerator while its area stays in the denominator), and the per-year
`np.average` path returns NaN. -/
theorem c1_counterexample_nan_value_not_renormalized :
    specWeightedMean [(some 100, some 1), (none, some 1)] = 100 ∧
    smb_value [some 100, none] [1, 1] = 50 ∧
    npAverage [some 100, none] [1, 1] = Except.ok none ∧
    smb_value [some 100, none] [1, 1] ≠
      specWeightedMean [(some 100, some 1), (none, some 1)] := by
  refine ⟨by norm_num [specWeightedMean, List.filterMap_cons],
    by norm_num [smb_value, mb_mm_pon, seriesSum, List.filterMap_cons],
    by norm_num [npAverage, dotNan],
    by norm_num [smb_value, mb_mm_pon, seriesSum, specWeightedMean,
      List.filterMap_cons]⟩

/-- C1 amended: with no NaN among the values both reducers return
`Σ value·area / Σ area`; a NaN AREA is excluded from numerator and
denominator alike (the `dropna` before the reduction implements
drop-and-renormalize for areas, matching the spec reducer); but a NaN VALUE
is not renormalized — the scalar path keeps the full area sum in the
denominator and numpy's per-year average returns NaN outright. -/
theorem c1_amended_reducer_behaviour :
    (∀ (vs ws : List ℚ), vs.length = ws.length → ws.sum ≠ 0 →
      npAverage (vs.map some) ws =
        Except.ok (some (((vs.zip ws).map fun p => p.1 * p.2).sum / ws.sum)))
    ∧ (∀ (vs ws : List ℚ),
      smb_value (vs.map some) ws =
        ((vs.zip ws).map fun p => p.1 * p.2).sum / ws.sum)
    ∧ (∀ (vals : List (Option ℚ)) (ws : List ℚ),
      smb_value vals ws =
        (((vals.zip ws).filterMap fun p => p.1.map fun v => v * p.2).sum) /
          ws.sum)
    ∧ (∀ (mb : String → ℚ) (rows : List (String × Option ℚ)),
      smb_value ((dropnaAreas rows).map fun r => some (mb r.1))
          ((dropnaAreas rows).map fun r => r.2) =
        specWeightedMean (rows.map fun r => (some (mb r.1), r.2)))
    ∧ (∀ (vals : List (Option ℚ)) (ws : List ℚ), vals.length = ws.length →
      ws.sum ≠ 0 → none ∈ vals →
      npAverage vals ws = Except.ok none) := by
  refine ⟨?_, ?_, ?_, ?_, ?_⟩
  · intro vs ws hlen hsum
    simp [npAverage, hsum, dotNan_map_some vs ws hlen]
  · intro vs ws
    rw [seriesSum_mb_mm_pon]
    congr 1
    have hz : (vs.map some).zip ws = (vs.zip ws).map fun p =>
        ((some p.1 : Option ℚ), p.2) := by
      induction vs generalizing ws with
      | nil => simp
      | cons v t ih =>
        cases ws with
        | nil => simp
        | cons w wt => simp [ih]
    rw [hz, List.filterMap_map]
    have hfun : ((fun p : Option ℚ × ℚ => p.1.map fun v => v * p.2) ∘
        fun p : ℚ × ℚ => ((some p.1 : Option ℚ), p.2)) =
        fun p : ℚ × ℚ => some (p.1 * p.2) := by
      funext p
      simp
    rw [hfun, filterMap_some_fun]
  · intro vals ws
    exact seriesSum_mb_mm_pon vals ws
  · intro mb rows
    rw [seriesSum_mb_mm_pon,
      zip_map_pair (fun r : String × ℚ => (some (mb r.1) : Option ℚ))
        (fun r : String × ℚ => r.2) (dropnaAreas rows),
      List.filterMap_map]
    have hfun2 : ((fun p : Option ℚ × ℚ => p.1.map fun v => v * p.2) ∘
        fun r : String × ℚ => ((some (mb r.1) : Option ℚ), r.2)) =
        fun r : String × ℚ => some (mb r.1 * r.2) := by
      funext r
      simp
    rw [hfun2, filterMap_some_fun]
    simp only [specWeightedMean]
    rw [kept_pairs_eq, List.map_map, List.map_map]
    rfl
  · intro vals ws hlen hsum hmem
    simp [npAverage, hsum, dotNan_of_none_mem vals ws hlen hmem]

/-- C1 witness: the amended reducer formula at a concrete clean input. -/
theorem c1_witness_clean_input :
    npAverage [some (2 : ℚ), some 3] [4, 6] = Except.ok (some (13 / 5)) ∧
    smb_value [some (2 : ℚ), some 3] [4, 6] = 13 / 5 := by
  constructor
  · have h := c1_amended_reducer_behaviour.1 [2, 3] [4, 6]
      (by decide) (by norm_num)
    norm_num at h
    exact h
  · have h := c1_amended_reducer_behaviour.2.1 [(2 : ℚ), 3] [4, 6]
    norm_num at h
    exact h

/-- pandas row mean, `df.mean(axis=1)` for one row: NaN (`none`) when the row
has no columns, otherwise the arithmetic mean of the row. -/
def seriesMean (r : List ℚ) : Option ℚ :=
  if r.length = 0 then none else some (r.sum / r.length)

/-- Embedding of `cr2_glacier_means = cr2_numeric.mean(axis=1)`
(`03_Multi_Dataset_Comparison_DA1.py`, lines 71-73): one mean across the year
columns per glacier row. -/
def glacier_means (t : List (List ℚ)) : List (Option ℚ) :=
  t.map seriesMean

/-- pandas `Series.std()` with its default `ddof=1`, tracked by its square
(the variance): `skipna` drops NaN entries first; NaN (`none`) when fewer
than 2 valid entries remain. -/
def seriesVarOpt (xs : List (Option ℚ)) : Option ℚ :=
  let v := xs.filterMap id
  if v.length ≤ 1 then none
  else some (((v.map fun x => (x - v.sum / v.length) ^ 2).sum) /
    ((v.length - 1 : ℕ) : ℚ))

/-- Embedding of `cr2_smb_std = cr2_glacier_means.std()` squared
(`03_Multi_Dataset_Comparison_DA1.py`, lines 75-77) composed with the axis-1
mean of lines 71-73: the code's two-step per-dataset variance. -/
def twoStepVar (t : List (List ℚ)) : Option ℚ :=
  seriesVarOpt (glacier_means t)

/-- The spec's two-step procedure, written from its words: first average each
glacier's mass balance across all simulated years, then take the sample
variance (square of the SD) of those per-glacier means across all glaciers. -/
def specTwoStepVar (t : List (List ℚ)) : Option ℚ :=
  if t.length ≤ 1 then none
  else
    some ((((t.map fun r => r.sum / (r.length : ℚ)).map fun m =>
      (m - (t.map fun r => r.sum / (r.length : ℚ)).sum /
        ((t.map fun r => r.sum / (r.length : ℚ)).length : ℚ)) ^ 2).sum) /
      ((t.length - 1 : ℕ) : ℚ))

/-- The alternative the claim rules out: a sample variance computed directly
over the full (glacier × year) value set. -/
def pooledVar (t : List (List ℚ)) : Option ℚ :=
  seriesVarOpt (t.flatten.map some)

/-- Population variance (divisor `n`, i.e. `ddof = 0`) over the same series —
the alternative divisor the implicit claim rules out. -/
def popVarOpt (xs : List (Option ℚ)) : Option ℚ :=
  let v := xs.filterMap id
  if v.length = 0 then none
  else some (((v.map fun x => (x - v.sum / v.length) ^ 2).sum) /
    (v.length : ℚ))

lemma glacier_means_filterMap (t : List (List ℚ)) (ht : ∀ r ∈ t, r ≠ []) :
    (glacier_means t).filterMap id = t.map fun r => r.sum / (r.length : ℚ) := by
  induction t with
  | nil => simp [glacier_means]
  | cons r tl ih =>
    have hr : ¬r.length = 0 := by
      simpa [List.length_eq_zero] using ht r (List.mem_cons_self r tl)
    have ih' := ih fun x hx => ht x (List.mem_cons_of_mem _ hx)
    simp [glacier_means, seriesMean, hr, List.filterMap_cons] at ih' ⊢
    exact ih'

/-- C7: the reported within-dataset variability is the arithmetic mean of the
three per-dataset standard deviations (`np.mean` of three values is their sum
over 3), and each per-dataset variance is exactly the spec's two-step
"mean across years per glacier, then deviation across glaciers" procedure —
which differs from a variance pooled over the full glacier × year set, as the
concrete table `[[0,0],[1,1]]` shows (`1/2` two-step vs `1/3` pooled). -/
theorem c7_within_variability_is_two_step_mean :
    (∀ t : List (List ℚ), (∀ r ∈ t, r ≠ []) →
      twoStepVar t = specTwoStepVar t)
    ∧ (∀ s1 s2 s3 : ℚ, npMean [s1, s2, s3] = some ((s1 + s2 + s3) / 3))
    ∧ twoStepVar [[0, 0], [1, 1]] = some (1 / 2)
    ∧ pooledVar [[0, 0], [1, 1]] = some (1 / 3)
    ∧ twoStepVar [[0, 0], [1, 1]] ≠ pooledVar [[0, 0], [1, 1]] := by
  refine ⟨?_, ?_, ?_, ?_, ?_⟩
  · intro t ht
    have key := glacier_means_filterMap t ht
    simp only [twoStepVar, seriesVarOpt, specTwoStepVar, key,
      List.length_map]
  · intro s1 s2 s3
    norm_num [npMean]
    ring_nf
  · norm_num [twoStepVar, seriesVarOpt, glacier_means, seriesMean,
      List.filterMap_cons]
  · norm_num [pooledVar, seriesVarOpt, List.filterMap_cons, List.flatten]
  · norm_num [twoStepVar, pooledVar, seriesVarOpt, glacier_means,
      seriesMean, List.filterMap_cons, List.flatten]

/-- C7 witness: the two-step refinement at a concrete two-glacier,
two-year table. -/
theorem c7_witness_concrete_table :
    twoStepVar [[(1 : ℚ), 2], [3, 4]] = specTwoStepVar [[(1 : ℚ), 2], [3, 4]] :=
  c7_within_variability_is_two_step_mean.1 [[1, 2], [3, 4]] (by decide)

/-- C9: the per-dataset intra-glacier standard deviation uses the pandas
default `ddof = 1`: with at least two valid entries its square is the sum of
squared deviations divided by `n − 1` (sample variance), which differs from
the population divisor `n`, as `{0, 1}` shows (`1/2` sample vs `1/4`
population); `twoStepVar` is this statistic applied to the per-glacier
means. -/
theorem c9_intra_dataset_std_is_sample :
    (∀ xs : List (Option ℚ), 2 ≤ (xs.filterMap id).length →
      seriesVarOpt xs = some ((((xs.filterMap id).map fun x =>
        (x - (xs.filterMap id).sum / (xs.filterMap id).length) ^ 2).sum) /
        (((xs.filterMap id).length - 1 : ℕ) : ℚ)))
    ∧ (∀ t : List (List ℚ), twoStepVar t = seriesVarOpt (glacier_means t))
    ∧ seriesVarOpt [some 0, some 1] = some (1 / 2)
    ∧ popVarOpt [some 0, some 1] = some (1 / 4)
    ∧ seriesVarOpt [some 0, some 1] ≠ popVarOpt [some 0, some 1] := by
  refine ⟨?_, ?_, ?_, ?_, ?_⟩
  · intro xs h
    simp only [seriesVarOpt]
    rw [if_neg (by omega)]
  · intro t
    rfl
  · norm_num [seriesVarOpt, List.filterMap_cons]
  · norm_num [popVarOpt, List.filterMap_cons]
  · norm_num [seriesVarOpt, popVarOpt, List.filterMap_cons]

/-- C9 witness: the sample-variance formula at the concrete series
`{0, 2}` (variance `2`). -/
theorem c9_witness_concrete_series :
    seriesVarOpt [some (0 : ℚ), some 2] = some 2 := by
  have h := c9_intra_dataset_std_is_sample.1 [some (0 : ℚ), some 2]
    (by decide)
  rw [h]
  norm_num [List.filterMap_cons]

/-- One row of the geodetic mass-balance dataframe consumed by
`02_Andes_2000_2019_CR2_figura_2023.py` (lines 181-197): RGI id (the frame
index), observation period, rate `dmdtda` (m w.e./yr), its error, and the
glacier's geodetic area (m²). -/
structure GeodeticRow where
  rgiId : String
  period : String
  dmdtda : ℚ
  err_dmdtda : ℚ
  area : ℚ
  deriving DecidableEq, Repr

/-- The row selection of lines 188 and 192: keep the 2000-2020 period, then
keep the glaciers appearing in the simulated-id list. -/
def gmb_maipo_sel (rows : List GeodeticRow) (ids : List String) :
    List GeodeticRow :=
  ((rows.filter fun r => r.period == "2000-01-01_2020-01-01").filter
    fun r => ids.contains r.rgiId)

/-- Embedding of `gmb_value = gmb_maipo.dmdtda_mm_pon.sum()` (lines 189, 193, 196):
each rate ×1000 to mm, weighted by `(area/10⁶) / (Σ area/10⁶)` over the
restricted selection, then summed. -/
def gmb_value (rows : List GeodeticRow) (ids : List String) : ℚ :=
  ((gmb_maipo_sel rows ids).map fun r => (r.dmdtda * 1000) *
    ((r.area / 1000000) /
      (((gmb_maipo_sel rows ids).map fun s => s.area).sum / 1000000))).sum

/-- Embedding of `gmb_error = gmb_maipo.err_dmdtda_mm_pon.sum()` (lines 190, 194, 197):
the same area-weighted LINEAR combination applied to the per-glacier
errors. -/
def gmb_error (rows : List GeodeticRow) (ids : List String) : ℚ :=
  ((gmb_maipo_sel rows ids).map fun r => (r.err_dmdtda * 1000) *
    ((r.area / 1000000) /
      (((gmb_maipo_sel rows ids).map fun s => s.area).sum / 1000000))).sum

lemma list_sum_map_div {α : Type} (l : List α) (f : α → ℚ) (c : ℚ) :
    (l.map fun x => f x / c).sum = (l.map f).sum / c := by
  induction l with
  | nil => simp
  | cons a t ih => simp [ih, add_div]

lemma div_millionth (a S : ℚ) : (a / 1000000) / (S / 1000000) = a / S := by
  rcases eq_or_ne S 0 with h | h
  · simp [h]
  · rw [div_div_div_cancel_right₀]
    norm_num

lemma weighted_column_sum (sel : List GeodeticRow) (g : GeodeticRow → ℚ) :
    (sel.map fun r => g r * ((r.area / 1000000) /
      (((sel.map fun s => s.area).sum) / 1000000))).sum =
      ((sel.map fun r => g r * r.area).sum) /
        ((sel.map fun s => s.area).sum) := by
  rw [← list_sum_map_div sel (fun r => g r * r.area)]
  congr 1
  apply List.map_congr_left
  intro r _
  rw [div_millionth, mul_div_assoc]

/-- C10: the cluster-level GMB is the area-weighted mean of the per-glacier
geodetic rates (in mm, restricted to the 2000-2020 period and to the
simulated glaciers), and the cluster GMB error is the same area-weighted
LINEAR combination of the per-glacier errors — demonstrably not a
combination in quadrature, since for two equal-area glaciers with errors
`3` and `4` (m) the code yields `3500` mm whose square `12250000` differs
from the quadrature sum `1500² + 2000² = 6250000`. -/
theorem c10_gmb_area_weighted_linear :
    (∀ (rows : List GeodeticRow) (ids : List String),
      gmb_value rows ids =
        ((gmb_maipo_sel rows ids).map fun r => r.dmdtda * 1000 * r.area).sum /
          ((gmb_maipo_sel rows ids).map fun s => s.area).sum)
    ∧ (∀ (rows : List GeodeticRow) (ids : List String),
      gmb_error rows ids =
        ((gmb_maipo_sel rows ids).map fun r =>
          r.err_dmdtda * 1000 * r.area).sum /
          ((gmb_maipo_sel rows ids).map fun s => s.area).sum)
    ∧ gmb_error
        [⟨"a", "2000-01-01_2020-01-01", 0, 3, 1⟩,
         ⟨"b", "2000-01-01_2020-01-01", 0, 4, 1⟩] ["a", "b"] = 3500
    ∧ (gmb_error
        [⟨"a", "2000-01-01_2020-01-01", 0, 3, 1⟩,
         ⟨"b", "2000-01-01_2020-01-01", 0, 4, 1⟩] ["a", "b"]) ^ 2 ≠
        (3 * 1000 * (1 / 2 : ℚ)) ^ 2 + (4 * 1000 * (1 / 2 : ℚ)) ^ 2 := by
  refine ⟨?_, ?_, ?_, ?_⟩
  · intro rows ids
    have h := weighted_column_sum (gmb_maipo_sel rows ids)
      fun r => r.dmdtda * 1000
    simpa [gmb_value, mul_assoc] using h
  · intro rows ids
    have h := weighted_column_sum (gmb_maipo_sel rows ids)
      fun r => r.err_dmdtda * 1000
    simpa [gmb_error, mul_assoc] using h
  · norm_num [gmb_error, gmb_maipo_sel, List.filter]
  · norm_num [gmb_error, gmb_maipo_sel, List.filter]
